import Mathlib

/-!
Verification of the SHIP event-detection and dispatch engine
(src/examples/example_5: event_classifier.py, ship_dispatcher.py,
wavelet_denoiser.py) against its natural-language specification.

The embedding models pandas Series/DataFrames as Lean lists of cells.
Floats are modelled as rationals; a missing value (NaN) is an explicit
cell constructor.  Python exceptions are modelled with Except: a function
that can raise returns Except PyError.  In pandas semantics relevant
here:
  * comparisons (>, <, >=, <=, ==) against a scalar are False on NaN;
  * the inequality `col != col.shift(1)` is True whenever either side is
    NaN (NaN compares unequal to everything, itself included);
  * shift(1) introduces a NaN before the first element, shift(-i) after
    the last.
-/

namespace PM

/-- A cell of a telemetry column: a float (modelled exactly as a rational),
a boolean, or a missing value (NaN). -/
inductive Cell where
  | num (q : ℚ)
  | bool (b : Bool)
  | nan
deriving DecidableEq, Repr

/-- pandas notna: False exactly on a missing value. -/
def Cell.notna : Cell → Bool
  | .nan => false
  | _ => true

/-- Numeric view of a cell for scalar comparisons: Python booleans compare
as 0/1; NaN has no numeric view (comparisons on it are False). -/
def Cell.toRat? : Cell → Option ℚ
  | .num q => some q
  | .bool b => some (if b then 1 else 0)
  | .nan => none

/-- The comparators accepted by every ops table in the source
(`>`, `<`, `>=`, `<=`, `==`). -/
def knownOp (op : String) : Bool :=
  op = ">" || op = "<" || op = ">=" || op = "<=" || op = "=="

/-- Elementwise scalar comparison of one cell, as pandas evaluates
`series <op> threshold`: False on NaN.  Only meaningful for a known op
(callers check membership in the ops table first); the final branch is
the `==` case. -/
def cellCmp (op : String) (c : Cell) (t : ℚ) : Bool :=
  match c.toRat? with
  | none => false
  | some x =>
    if op = ">" then decide (t < x)
    else if op = "<" then decide (x < t)
    else if op = ">=" then decide (t ≤ x)
    else if op = "<=" then decide (x ≤ t)
    else decide (x = t)

/-- pandas elementwise `!=` between a cell and its shifted predecessor:
True whenever either side is NaN, plain disequality otherwise (Python
booleans equal their 0/1 numeric value). -/
def cellNe (a b : Cell) : Bool :=
  match a, b with
  | .nan, _ => true
  | _, .nan => true
  | .num x, .num y => decide (x ≠ y)
  | .bool x, .bool y => x != y
  | .num x, .bool y => decide (x ≠ if y then 1 else 0)
  | .bool x, .num y => decide ((if x then (1 : ℚ) else 0) ≠ y)

/-- A telemetry DataFrame: the designated absolute-time column
(`time.absolute`) plus the named channels, all sharing the row index. -/
structure DataFrame where
  timestamps : List ℚ
  cols : List (String × List Cell)
deriving DecidableEq, Repr

/-- Column lookup, `df[name]` / `name in df.columns`. -/
def DataFrame.getCol (df : DataFrame) (name : String) : Option (List Cell) :=
  (df.cols.find? (fun p => p.1 = name)).map Prod.snd

/-- `name in df.columns`. -/
def DataFrame.hasCol (df : DataFrame) (name : String) : Bool :=
  (df.getCol name).isSome

/-- `df[name] = col`: replace the column if the name exists, append it
otherwise. -/
def DataFrame.setCol (df : DataFrame) (name : String) (col : List Cell) : DataFrame :=
  if df.cols.any (fun p => p.1 = name) then
    { df with cols := df.cols.map (fun p => if p.1 = name then (name, col) else p) }
  else
    { df with cols := df.cols ++ [(name, col)] }

/-- An event record as produced by every EventClassifier method:
columns timestamp, activity, value. -/
structure Event where
  timestamp : ℚ
  activity : String
  value : Cell
deriving DecidableEq, Repr

/-- A tagged event of the dispatcher's output log: columns
timestamp, activity, subsystem, transition_type, value. -/
structure TaggedEvent where
  timestamp : ℚ
  activity : String
  subsystem : String
  transition_type : String
  value : Cell
deriving DecidableEq, Repr

/-- The Python exceptions the modelled code can raise. -/
inductive PyError where
  | keyError (k : String)
  | attributeError (m : String)
  | valueError (msg : String)
  | indexError
  | typeError (msg : String)
deriving DecidableEq, Repr

instance {ε α : Type} [DecidableEq ε] [DecidableEq α] : DecidableEq (Except ε α) := fun a b =>
  match a, b with
  | .error e, .error f =>
    if h : e = f then .isTrue (by rw [h]) else .isFalse (by intro hh; cases hh; exact h rfl)
  | .ok x, .ok y =>
    if h : x = y then .isTrue (by rw [h]) else .isFalse (by intro hh; cases hh; exact h rfl)
  | .error _, .ok _ => .isFalse (by intro hh; cases hh)
  | .ok _, .error _ => .isFalse (by intro hh; cases hh)

/-- Indices of the rows selected by a boolean mask
(`self.df[mask].index` for a positional index). -/
def selectedIndices (sel : List Bool) : List ℕ :=
  (List.range sel.length).filter (fun i => sel.getD i false)

/-- The elementwise comparison mask `ops[condition](self.df[column])`. -/
def maskOf (op : String) (t : ℚ) (col : List Cell) : List Bool :=
  col.map (fun c => cellCmp op c t)

/-- `mask & ~mask.shift(1, fill_value=False)`: true where the mask rises
from false (or start of series) to true. -/
def risingEdges (mask : List Bool) : List Bool :=
  List.zipWith (fun cur prev => cur && !prev) mask (false :: mask)

/-- The source's minimum-duration window: `duration_check` is the OR of
`mask.shift(-i, fill_value=False)` for i in range(min_duration_rows) —
an OR over the look-ahead window, exactly as written at
event_classifier.py lines 67-69. -/
def orWindow (d : ℕ) (mask : List Bool) : List Bool :=
  (List.range mask.length).map (fun i => (List.range d).any (fun j => mask.getD (i + j) false))

/-- EventClassifier.detect_threshold_events (event_classifier.py lines
32-79): rising-edge detection of `column <condition> threshold`, with the
source's `min_duration_rows` filter.  Raises ValueError on an unknown
condition, KeyError on a missing column. -/
def detect_threshold_events (df : DataFrame) (column : String) (threshold : ℚ)
    (condition : String) (event_name : String) (min_duration_rows : ℕ) :
    Except PyError (List Event) :=
  if ¬ knownOp condition then .error (.valueError condition) else
  match df.getCol column with
  | none => .error (.keyError column)
  | some col =>
    let mask := maskOf condition threshold col
    let rising := risingEdges mask
    let rising := if min_duration_rows > 1 then
        List.zipWith and rising (orWindow min_duration_rows mask)
      else rising
    .ok ((selectedIndices rising).map (fun i =>
      { timestamp := df.timestamps.getD i 0, activity := event_name,
        value := col.getD i Cell.nan }))

/-- Python's str() of a bool. -/
def pyBoolStr (b : Bool) : String := if b then "True" else "False"

/-- Round half to even, the rounding of Python's "{:.0f}" format. -/
def roundHalfEven (q : ℚ) : ℤ :=
  let f := ⌊q⌋
  let r := q - f
  if r < 1/2 then f else if 1/2 < r then f + 1 else if f % 2 = 0 then f else f + 1

/-- The text of one end of a transition label: under a bool dtype the
label uses str() of the bool; otherwise the "{:.0f}" numeric format
(a bool formats as its 0/1 value, NaN as "nan"). -/
def cellStr (isBool : Bool) (c : Cell) : String :=
  if isBool then
    match c with
    | .bool b => pyBoolStr b
    | .num q => toString (roundHalfEven q)
    | .nan => "nan"
  else
    match c with
    | .bool b => toString (roundHalfEven (if b then 1 else 0))
    | .num q => toString (roundHalfEven q)
    | .nan => "nan"

/-- Activity label of a non-first transition row. -/
def transitionLabel (pfx : String) (isBool : Bool) (prev curr : Cell) : String :=
  pfx ++ (" " ++ cellStr isBool prev ++ "->" ++ cellStr isBool curr)

/-- pandas is_bool_dtype of a column in this model: every cell is a
boolean (a bool column never holds NaN). -/
def isBoolDtype (col : List Cell) : Bool :=
  col.all (fun c => match c with | .bool _ => true | _ => false)

/-- One pass of detect_state_change_events over the column, carrying the
previous cell (`col.shift(1)`, NaN before the first row) and the row
index.  A row is emitted when `col != col.shift(1)` holds — under
ignore_nan additionally both sides must be present — with the synthetic
"Start" label at the first row and a transition label elsewhere. -/
def stateChangeEventsAux (pfx : String) (ignoreNan isBool : Bool) (ts : List ℚ)
    (prev : Cell) (idx : ℕ) : List Cell → List Event
  | [] => []
  | c :: rest =>
    let changed := if ignoreNan then cellNe c prev && c.notna && prev.notna else cellNe c prev
    let tail := stateChangeEventsAux pfx ignoreNan isBool ts c (idx + 1) rest
    if changed then
      { timestamp := ts.getD idx 0
        activity := if idx = 0 then pfx ++ " Start" else transitionLabel pfx isBool prev c
        value := c } :: tail
    else tail

/-- EventClassifier.detect_state_change_events (event_classifier.py lines
81-131): one record per value transition of the column; under the default
ignore_nan=True a transition needs both the current and previous value
present.  Raises KeyError on a missing column. -/
def detect_state_change_events (df : DataFrame) (column : String) (pfx : String)
    (ignore_nan : Bool := true) : Except PyError (List Event) :=
  match df.getCol column with
  | none => .error (.keyError column)
  | some col =>
    .ok (stateChangeEventsAux pfx ignore_nan (isBoolDtype col) df.timestamps Cell.nan 0 col)

/-- The `masks` list comprehension of detect_combined_condition_events:
for each (column, op, threshold) triple, `ops[op]` is looked up first
(KeyError on an unknown op), then `self.df[col]` (KeyError on a missing
column), then the elementwise mask is built. -/
def condMasks (df : DataFrame) : List (String × String × ℚ) → Except PyError (List (List Bool))
  | [] => .ok []
  | (c, op, t) :: rest =>
    if ¬ knownOp op then .error (.keyError op) else
    match df.getCol c with
    | none => .error (.keyError c)
    | some col =>
      match condMasks df rest with
      | .error e => .error e
      | .ok ms => .ok (maskOf op t col :: ms)

/-- EventClassifier.detect_combined_condition_events (event_classifier.py
lines 133-176): combine the condition masks — AND when mode == "all",
OR otherwise (the source's else branch catches every other mode) — and
emit a record with NaN value at each rising edge.  `masks[0]` raises
IndexError when the conditions list is empty. -/
def detect_combined_condition_events (df : DataFrame)
    (conditions : List (String × String × ℚ)) (event_name : String)
    (mode : String := "all") : Except PyError (List Event) :=
  match condMasks df conditions with
  | .error e => .error e
  | .ok [] => .error .indexError
  | .ok (m0 :: rest) =>
    let combined := if mode = "all" then rest.foldl (List.zipWith and) m0
      else rest.foldl (List.zipWith or) m0
    .ok ((selectedIndices (risingEdges combined)).map (fun i =>
      { timestamp := df.timestamps.getD i 0, activity := event_name, value := Cell.nan }))

/-- pandas Series.mean(): sum over count (the empty case, NaN in pandas,
is modelled as 0; it is only ever reached when the series is empty, where
every detection below is empty either way). -/
def seriesMean (xs : List ℚ) : ℚ := xs.sum / xs.length

/-- pandas Series.var() with the default ddof=1:
sum of squared deviations over (n - 1).  For n ≤ 1 pandas yields NaN;
here the division by zero yields 0 — on those series the detection below
emits nothing under either reading, since the deviation sum is 0. -/
def seriesVar (xs : List ℚ) : ℚ :=
  (xs.map (fun x => (x - seriesMean xs) ^ 2)).sum / ((xs.length : ℚ) - 1)

/-- pandas Series.std() = sqrt of the ddof=1 variance.  Rat.sqrt models
the float square root exactly where the claims evaluate it (at perfect
squares, in particular at 0). -/
def seriesStd (xs : List ℚ) : ℚ := Rat.sqrt (seriesVar xs)

/-- The WaveletDenoiser bound to its telemetry table.  compute_energy
(wavelet_denoiser.py lines 117-158) runs a PyWavelets decomposition; its
numeric content is outside this model, so the denoiser carries the
windowed-energy profile it would compute per channel as an abstract
function.  detect_energy_change_points below embeds lines 183-202 of the
source on top of it. -/
structure Wd where
  df : DataFrame
  energy : String → List ℚ

/-- WaveletDenoiser.detect_energy_change_points (wavelet_denoiser.py lines
160-202): a missing column returns an empty event set with a warning;
otherwise threshold = mean + threshold_sigma * std of the energy profile,
and a record is emitted at each rising edge of the strict exceedance mask,
with the energy value at that row. -/
def detect_energy_change_points (wd : Wd) (column : String) (event_name : String)
    (threshold_sigma : ℚ) : List Event :=
  if ¬ wd.df.hasCol column then []
  else
    let energy := wd.energy column
    let threshold := seriesMean energy + threshold_sigma * seriesStd energy
    let above := energy.map (fun x => decide (threshold < x))
    (selectedIndices (risingEdges above)).map (fun i =>
      { timestamp := wd.df.timestamps.getD i 0, activity := event_name,
        value := Cell.num ((wd.energy column).getD i 0) })

/-!
## The SHIP dispatcher (ship_dispatcher.py)

A config entry is a Python dict; the model is a structure of optional
fields, one per key the dispatcher or a detection method reads — a `none`
field is an absent key.  Keyword-argument binding of a method call checks
that the required keys are present and no key outside the method's
signature is given (Python raises TypeError otherwise).  Arbitrary
further dict keys and non-dict entries are outside the model.
-/

/-- The `args` dict of a config entry.  `pfx` is the source's
event_name_prefix key. -/
structure Args where
  pfx : Option String := none
  column : Option String := none
  conditions : Option (List (String × String × ℚ)) := none
  event_name : Option String := none
  threshold : Option ℚ := none
  condition : Option String := none
  min_duration_rows : Option ℕ := none
  mode : Option String := none
  threshold_sigma : Option ℚ := none
  ignore_nan : Option Bool := none
deriving DecidableEq, Repr

/-- One SHIP_EVENTS config entry. -/
structure Entry where
  subsystem : Option String := none
  method : Option String := none
  derived_column : Option (String × String × ℚ) := none
  transition_type : Option String := none
  args : Option Args := none
deriving DecidableEq, Repr

/-- The dispatcher's non-fatal warnings (its diagnostics channel),
structured: the two missing-column skip warnings, and the catch-all
per-rule error naming the subsystem and the entry's args. -/
inductive Diagnostic where
  | missingColumn (column : String) (entryName : String)
  | missingColumns (columns : List String) (entryName : String)
  | ruleError (subsystem : String) (args : Option Args) (exc : PyError)
deriving DecidableEq, Repr

/-- The `tmap` dict lookup of ship_dispatcher.py lines 92-95: the two
boolean-transition labels built from the prefix map to the SHIP
transition types; any other activity maps to NaN (and is then dropped). -/
def tmapLookup (pfx : String) (a : String) : Option String :=
  if a = pfx ++ " False->True" then some "error_activation"
  else if a = pfx ++ " True->False" then some "error_recovery"
  else none

/-- Lines 96-97 followed by line 121, for one event of a derived-state
rule: transition_type from tmap (rows mapping to NaN are dropped by
dropna), subsystem from the entry. -/
def tagDerived (pfx ss : String) (ev : Event) : Option TaggedEvent :=
  (tmapLookup pfx ev.activity).map (fun tt =>
    { timestamp := ev.timestamp, activity := ev.activity, subsystem := ss,
      transition_type := tt, value := ev.value })

/-- `getattr(ec, method)(**args)` for the EventClassifier detection
methods in the model's universe: keyword binding (missing required or
unexpected keyword raises TypeError), unknown attribute raises
AttributeError.  detect_local_extrema_events (scipy find_peaks) is
outside the model, so that name also models as a failed lookup; either
way the dispatcher catches whatever the call raises. -/
def callClassifier (df : DataFrame) (method : String) (a : Args) :
    Except PyError (List Event) :=
  if method = "detect_state_change_events" then
    match a.column, a.pfx with
    | some col, some p =>
      if a.conditions.isSome || a.event_name.isSome || a.threshold.isSome
          || a.condition.isSome || a.min_duration_rows.isSome || a.mode.isSome
          || a.threshold_sigma.isSome then .error (.typeError method)
      else detect_state_change_events df col p (a.ignore_nan.getD true)
    | _, _ => .error (.typeError method)
  else if method = "detect_threshold_events" then
    match a.column, a.threshold, a.condition, a.event_name with
    | some col, some t, some cond, some en =>
      if a.pfx.isSome || a.conditions.isSome || a.mode.isSome
          || a.threshold_sigma.isSome || a.ignore_nan.isSome then .error (.typeError method)
      else detect_threshold_events df col t cond en (a.min_duration_rows.getD 1)
    | _, _, _, _ => .error (.typeError method)
  else if method = "detect_combined_condition_events" then
    match a.conditions, a.event_name with
    | some cs, some en =>
      if a.pfx.isSome || a.column.isSome || a.threshold.isSome || a.condition.isSome
          || a.min_duration_rows.isSome || a.threshold_sigma.isSome
          || a.ignore_nan.isSome then .error (.typeError method)
      else detect_combined_condition_events df cs en (a.mode.getD "all")
    | _, _ => .error (.typeError method)
  else .error (.attributeError method)

/-- What a pandas method call hands back to the dispatcher: a proper
event DataFrame (columns timestamp, activity, value), or a pd.Series —
the denoiser's denoise_channel and compute_energy return Series, which
the tagging assignments extend without raising but which carry no
timestamp column into the final merge. -/
inductive PdResult where
  | evframe (evs : List Event)
  | series
deriving DecidableEq, Repr

/-- `hasattr(wd, method)` over the denoiser's public methods
(wavelet_denoiser.py).  Attribute names both objects share (dunders, df,
wavelet, level) are not callable with the dispatcher's kwargs and raise
TypeError inside the try along either route, so the model routes them to
the classifier lookup — the caught-error outcome is identical. -/
def wdHasMethod (m : String) : Bool :=
  m = "detect_energy_change_points" || m = "denoise_channel" || m = "denoise_all"
    || m = "compute_energy"

/-- `getattr(wd, method)(**args)` for the denoiser, one branch per public
method:
  * detect_energy_change_points(column, event_name, threshold_sigma=3)
    returns an event frame;
  * denoise_channel(column) returns a denoised pd.Series (its wavelet
    numerics are opaque; a missing column raises KeyError at
    `self.df[column]`);
  * denoise_all(columns) requires a `columns` keyword that no args dict
    of the model's Args universe can express, so every expressible call
    raises TypeError at binding;
  * compute_energy(column, window=None) returns the windowed-energy
    pd.Series (a missing column raises KeyError).
Unexpected or missing keywords raise TypeError at binding. -/
def callWd (wd : Wd) (method : String) (a : Args) : Except PyError PdResult :=
  if method = "detect_energy_change_points" then
    match a.column, a.event_name with
    | some col, some en =>
      if a.pfx.isSome || a.conditions.isSome || a.threshold.isSome || a.condition.isSome
          || a.min_duration_rows.isSome || a.mode.isSome || a.ignore_nan.isSome then
        .error (.typeError method)
      else .ok (.evframe (detect_energy_change_points wd col en (a.threshold_sigma.getD 3)))
    | _, _ => .error (.typeError method)
  else if method = "denoise_channel" then
    match a.column with
    | some col =>
      if a.pfx.isSome || a.conditions.isSome || a.event_name.isSome || a.threshold.isSome
          || a.condition.isSome || a.min_duration_rows.isSome || a.mode.isSome
          || a.threshold_sigma.isSome || a.ignore_nan.isSome then .error (.typeError method)
      else if ¬ wd.df.hasCol col then .error (.keyError col)
      else .ok .series
    | none => .error (.typeError method)
  else if method = "denoise_all" then .error (.typeError method)
  else if method = "compute_energy" then
    match a.column with
    | some col =>
      if a.pfx.isSome || a.conditions.isSome || a.event_name.isSome || a.threshold.isSome
          || a.condition.isSome || a.min_duration_rows.isSome || a.mode.isSome
          || a.threshold_sigma.isSome || a.ignore_nan.isSome then .error (.typeError method)
      else if ¬ wd.df.hasCol col then .error (.keyError col)
      else .ok .series
    | none => .error (.typeError method)
  else .error (.attributeError method)

/-- What one entry appends to `frames`: a tagged event frame, or a
pd.Series that the tagging extended in place (denoise_channel /
compute_energy under a supplied denoiser) — no timestamp column, so it
poisons the final merge. -/
inductive Contribution where
  | events (evs : List TaggedEvent)
  | series
deriving DecidableEq, Repr

/-- Whether a contribution is a pd.Series. -/
def Contribution.isSeries : Contribution → Bool
  | .series => true
  | _ => false

/-- The tagged event rows a contribution brings to the merged log
(a Series brings none). -/
def Contribution.eventRows : Contribution → List TaggedEvent
  | .events evs => evs
  | .series => []

/-- The simple-pattern call of ship_dispatcher.py lines 117-119, after
column validation: route to the denoiser when one is supplied and it has
the method, else to the classifier; then `events["transition_type"] =
entry["transition_type"]` (the lookup raises KeyError when the entry has
no such key; the assignment itself succeeds on a DataFrame and on a
Series alike, a Series merely gaining two labelled elements). -/
def simpleCall (df : DataFrame) (wd : Option Wd) (ss : String) (e : Entry) (a : Args) :
    Except PyError (Sum Diagnostic Contribution) :=
  match e.method with
  | none => .error (.keyError "method")
  | some m =>
    match (match wd with
      | some w => if wdHasMethod m then callWd w m a
                  else (callClassifier df m a).map PdResult.evframe
      | none => (callClassifier df m a).map PdResult.evframe : Except PyError PdResult) with
    | .error exc => .error exc
    | .ok r =>
      match e.transition_type with
      | none => .error (.keyError "transition_type")
      | some tt =>
        match r with
        | .evframe evs => .ok (.inr (.events (evs.map (fun ev =>
            { timestamp := ev.timestamp, activity := ev.activity, subsystem := ss,
              transition_type := tt, value := ev.value }))))
        | .series => .ok (.inr .series)

/-- The body of the per-entry `try` block (ship_dispatcher.py lines
69-134), given the caller's table.  The result is the raised exception
(`.error`), a skip-with-warning (`.ok (.inl d)`, the source's `continue`
after a missing-column warning), or the entry's tagged event frame
(`.ok (.inr c)`).  The second component records the DataFrame objects
the entry allocated (`df.copy(deep=False)` then the temp-column
assignment targets that copy): the store discipline for the caller-table
frame theorem. -/
def tryEntry (df : DataFrame) (wd : Option Wd) (ss : String) (e : Entry) :
    Except PyError (Sum Diagnostic Contribution) × List DataFrame :=
  match e.derived_column with
  | some (col, op, val) =>
    if ¬ df.hasCol col then
      -- the warning text itself reads entry["args"], raising when absent
      match e.args with
      | none => (.error (.keyError "args"), [])
      | some a => (.ok (.inl (.missingColumn col (a.pfx.getD "?"))), [])
    else if ¬ knownOp op then (.error (.keyError op), [])
    else
      let colv := (df.getCol col).getD []
      let derived := colv.map (fun c => Cell.bool (cellCmp op c val))
      -- entry_df = df.copy(deep=False): a fresh frame object
      match e.args with
      | none => (.error (.keyError "args"), [df])
      | some a =>
        match a.pfx with
        | none => (.error (.keyError "event_name_prefix"), [df])
        | some p =>
          let temp := "_derived_" ++ p
          let entry_df := df.setCol temp derived
          match e.method with
          | none => (.error (.keyError "method"), [entry_df])
          | some m =>
            match callClassifier entry_df m { a with column := some temp } with
            | .error exc => (.error exc, [entry_df])
            | .ok evs => (.ok (.inr (.events (evs.filterMap (tagDerived p ss)))), [entry_df])
  | none =>
    match e.args with
    | none => (.error (.keyError "args"), [])
    | some a =>
      match a.conditions with
      | some cs =>
        let missing := (cs.filter (fun t => ¬ df.hasCol t.1)).map (fun t => t.1)
        if missing ≠ [] then (.ok (.inl (.missingColumns missing (a.event_name.getD "?"))), [])
        else (simpleCall df wd ss e a, [])
      | none =>
        match a.column with
        | some c =>
          if ¬ df.hasCol c then (.ok (.inl (.missingColumn c (a.event_name.getD "?"))), [])
          else (simpleCall df wd ss e a, [])
        | none => (simpleCall df wd ss e a, [])

/-- The heap of live DataFrame objects during one dispatch; the caller's
table is the frame at index 0.  Statements of the source mutate the
frame object they target: the dispatcher only ever writes the per-entry
copies, which the model allocates at fresh indices. -/
structure Store where
  frames : List DataFrame
deriving DecidableEq, Repr

/-- The frame object at an address. -/
def Store.read (s : Store) (i : ℕ) : DataFrame := s.frames.getD i ⟨[], []⟩

/-- The dispatcher loop (ship_dispatcher.py lines 66-140) over the store:
`entry["subsystem"]` is read before the try block, so its KeyError
escapes; everything raised inside the try becomes a ruleError diagnostic
naming the subsystem and the entry's args, and the loop continues. -/
def dispatchGo (wd : Option Wd) (dfId : ℕ) :
    List Entry → Store → Except PyError (List Contribution × List Diagnostic) × Store
  | [], s => (.ok ([], []), s)
  | e :: rest, s =>
    match e.subsystem with
    | none => (.error (.keyError "subsystem"), s)
    | some ss =>
      let r := tryEntry (s.read dfId) wd ss e
      let s1 : Store := ⟨s.frames ++ r.2⟩
      match dispatchGo wd dfId rest s1 with
      | (.error exc, s2) => (.error exc, s2)
      | (.ok (fs, ds), s2) =>
        match r.1 with
        | .error exc => (.ok (fs, .ruleError ss e.args exc :: ds), s2)
        | .ok (.inl d) => (.ok (fs, d :: ds), s2)
        | .ok (.inr c) => (.ok (c :: fs, ds), s2)

/-- Stable insertion by timestamp: the new event goes before the first
strictly later one and after every equal or earlier one. -/
def insertByTs (ev : TaggedEvent) : List TaggedEvent → List TaggedEvent
  | [] => [ev]
  | x :: xs => if ev.timestamp ≤ x.timestamp then ev :: x :: xs else x :: insertByTs ev xs

/-- The merge step `pd.concat(frames).sort_values("timestamp")` of lines
147-151, modelled as a stable sort by timestamp.  pandas sort_values is
called with the default kind="quicksort", whose tie order the pandas
contract leaves unspecified (only kind="mergesort"/"stable" is stable);
no theorem below relies on this model's tie order — where a sorted result
is asserted the timestamps are distinct, so every sorting of the concat
agrees. -/
def sortByTs (l : List TaggedEvent) : List TaggedEvent :=
  l.foldr insertByTs []

/-- The dispatcher's result: the merged tagged event log plus the
warnings it emitted.  `straySeries` counts the surviving pd.Series
contributions; their rows enter the merged frame after every event row
(their timestamp cell is missing, and sort_values places missing keys
last) and carry none of the event columns, so they are not representable
as tagged events. -/
structure DispatchOut where
  log : List TaggedEvent
  warnings : List Diagnostic
  straySeries : ℕ := 0
deriving DecidableEq, Repr

/-- The merge step `pd.concat(frames, ignore_index=True)
.sort_values("timestamp")` of lines 147-151, which runs OUTSIDE the
per-rule try block:
  * no frames: the early return of the empty five-column log;
  * only pd.Series survive: their concat is itself a Series, and
    Series.sort_values interprets the positional "timestamp" as its axis
    argument and raises ValueError — an exception that escapes the
    dispatcher;
  * otherwise at least one event DataFrame survives, the concat is a
    DataFrame with a timestamp column, and the sort succeeds; any Series
    rows trail the sorted events with missing timestamps. -/
def mergeFrames (cs : List Contribution) (ds : List Diagnostic) :
    Except PyError DispatchOut :=
  match cs with
  | [] => .ok { log := [], warnings := ds }
  | _ :: _ =>
    if cs.all Contribution.isSeries then
      .error (.valueError "No axis named timestamp for object type Series")
    else
      .ok { log := sortByTs (cs.flatMap Contribution.eventRows), warnings := ds,
            straySeries := (cs.filter Contribution.isSeries).length }

/-- dispatch_ship_events (ship_dispatcher.py lines 20-151): run the rule
loop on a store holding the caller's table at address 0, then concatenate
the surviving frames in rule order and sort by timestamp.  The empty
result is the empty log with the full five-column schema (the schema is
the TaggedEvent type). -/
def dispatch_ship_events (df : DataFrame) (config : List Entry)
    (wd : Option Wd := none) : Except PyError DispatchOut :=
  match dispatchGo wd 0 config ⟨[df]⟩ with
  | (.error exc, _) => .error exc
  | (.ok (cs, ds), _) => mergeFrames cs ds

/-- The event frame a single rule contributes to the merged log: the
tagged events appended to `frames` when the entry survives with an event
DataFrame, nothing when it is skipped, fails, or yields a Series. -/
def ruleContribution (df : DataFrame) (wd : Option Wd) (ss : String) (e : Entry) :
    List TaggedEvent :=
  match (tryEntry df wd ss e).1 with
  | .ok (.inr (.events evs)) => evs
  | _ => []

/-!
## Spec-side counting definitions and concrete fixtures
-/

/-- Count of value changes over the consecutive pairs of a column,
carrying the previous cell: a pair counts when both cells are present and
unequal. -/
def countChangesFrom (prev : Cell) : List Cell → ℕ
  | [] => 0
  | c :: rest => (if cellNe c prev && c.notna && prev.notna then 1 else 0) + countChangesFrom c rest

/-- The claim's n for a channel: the number of value changes ignoring
missing values — indices whose value differs from the predecessor with
both values present. -/
def numValueChanges : List Cell → ℕ
  | [] => 0
  | c :: rest => countChangesFrom c rest

/-- Number of records of a tagged frame carrying one transition type. -/
def countTT (tt : String) (l : List TaggedEvent) : ℕ :=
  (l.filter (fun ev => ev.transition_type = tt)).length

/-- A boolean as the integer 0 or 1. -/
def boolInt (b : Bool) : ℤ := if b then 1 else 0

/-- The spec's derived-state rule shape: subsystem, method state_change,
derived_column triple, args holding the label prefix. -/
def derivedEntry (srcCol op pfxv ss : String) (val : ℚ) : Entry :=
  { subsystem := some ss, method := some "detect_state_change_events",
    derived_column := some (srcCol, op, val), args := some { pfx := some pfxv } }

/-- A one-spike channel: condition col > 5 holds for exactly one sample. -/
def dfSpike : DataFrame := ⟨[0, 1, 2], [("s", [Cell.num 0, Cell.num 10, Cell.num 0])]⟩

/-- A two-row channel with one value change. -/
def dfPair : DataFrame := ⟨[0, 1], [("x", [Cell.num 1, Cell.num 2])]⟩

/-- The end-to-end scenario table of the spec: oil_psi = [30,30,30,4,4,30]
at absolute timestamps 0..5. -/
def dfOil : DataFrame :=
  ⟨[0, 1, 2, 3, 4, 5],
   [("oil_psi", [Cell.num 30, Cell.num 30, Cell.num 30, Cell.num 4, Cell.num 4, Cell.num 30])]⟩

/-- The end-to-end scenario rule: Lubrication, state_change on
(oil_psi < 5), label prefix low_oil. -/
def entryLowOil : Entry := derivedEntry "oil_psi" "<" "low_oil" "Lubrication" 5

/-!
## Claim theorems
-/

/-- Claim C2 (code_bug evidence): with min_duration_rows = 3, a rising
edge whose condition holds for a single sample still produces a record —
the OR look-ahead window is already true at any rising edge, so the
minimum-duration filter suppresses nothing.  The channel is 0, 10, 0
against threshold 5: the condition holds only at index 1, yet the event
at timestamp 1 is emitted. -/
theorem threshold_min_duration_not_enforced :
    detect_threshold_events dfSpike "s" 5 ">" "spike" 3 =
      .ok [{ timestamp := 1, activity := "spike", value := Cell.num 10 }] := by rfl

/-- Claim C4: the spec's end-to-end scenario.  Dispatching the single
derived-state rule (Lubrication, oil_psi < 5, prefix low_oil) over the
table with oil_psi = [30,30,30,4,4,30] at timestamps 0..5 yields exactly
two records: timestamp 3 with the activation transition type and
timestamp 5 with the recovery transition type (the spec's activation and
recovery are realised by the source as the strings "error_activation" and
"error_recovery"). -/
theorem dispatch_end_to_end_low_oil :
    dispatch_ship_events dfOil [entryLowOil] none = .ok
      { log := [{ timestamp := 3, activity := "low_oil False->True",
                  subsystem := "Lubrication", transition_type := "error_activation",
                  value := Cell.bool true },
                { timestamp := 5, activity := "low_oil True->False",
                  subsystem := "Lubrication", transition_type := "error_recovery",
                  value := Cell.bool false }],
        warnings := [] } := by rfl

/-- Claim C6 (counterexample): a malformed entry with no subsystem field
raises KeyError out of the dispatcher — `entry["subsystem"]` is read
before the try block — so an exception does escape the dispatcher on a
rule list containing this malformed entry. -/
theorem dispatch_missing_subsystem_escapes :
    dispatch_ship_events dfOil [{ method := some "detect_state_change_events" }] none =
      .error (.keyError "subsystem") := by rfl

/-- Claim C9: calling the combined-condition primitive with an empty
conditions list fails with IndexError (`masks[0]` on an empty masks list)
for every table, event name and mode, rather than returning an empty
event set. -/
theorem combined_empty_conditions_errors (df : DataFrame) (event_name mode : String) :
    detect_combined_condition_events df [] event_name mode = .error .indexError := rfl

/-- Claim C7 (counterexample): with the unknown combine mode "xor" the
primitive does not report a configuration error — it silently computes
the OR combination and returns its rising-edge events. -/
theorem combined_unknown_mode_silent :
    detect_combined_condition_events dfSpike [("s", ">", 5)] "e" "xor" =
      .ok [{ timestamp := 1, activity := "e", value := Cell.nan }] := by rfl

/-- Claim C7 (amended): any combine mode other than "all" is treated
exactly as "any" — the source's else branch ORs the masks without
checking the mode, so no configuration error is reported for an unknown
combine mode. -/
theorem combined_unknown_mode_is_any (df : DataFrame)
    (conditions : List (String × String × ℚ)) (event_name mode : String)
    (h : mode ≠ "all") :
    detect_combined_condition_events df conditions event_name mode =
      detect_combined_condition_events df conditions event_name "any" := by
  unfold detect_combined_condition_events
  cases hm : condMasks df conditions with
  | error e => rfl
  | ok ms =>
    cases ms with
    | nil => rfl
    | cons m0 rest => simp [h]

/-- Witness for combined_unknown_mode_is_any at the concrete mode "xor". -/
theorem combined_unknown_mode_is_any_witness :
    detect_combined_condition_events dfSpike [("s", ">", 5)] "e" "xor" =
      detect_combined_condition_events dfSpike [("s", ">", 5)] "e" "any" :=
  combined_unknown_mode_is_any dfSpike [("s", ">", 5)] "e" "xor" (by decide)

/-- Claim C3 (counterexample): on the two-row channel [1, 2] (one value
change, no missing values) state-change detection with the default
ignore_nan=True emits one record, not the claimed n + 1 = 2: the first
sample is not emitted, because its shifted predecessor is NaN and the
ignore-NaN mask requires the previous value to be present. -/
theorem stateChange_no_start_cex :
    ¬ ((detect_state_change_events dfPair "x" "p").toOption.getD []).length
        = numValueChanges [Cell.num 1, Cell.num 2] + 1 := by decide

/-- Under ignore_nan the number of emitted state-change rows equals the
number of change-counting pairs, whatever the starting index and label
data. -/
lemma stateChangeEventsAux_length (pfx : String) (isB : Bool) (ts : List ℚ) :
    ∀ (l : List Cell) (prev : Cell) (idx : ℕ),
      (stateChangeEventsAux pfx true isB ts prev idx l).length = countChangesFrom prev l := by
  intro l
  induction l with
  | nil => intro prev idx; rfl
  | cons c rest ih =>
    intro prev idx
    simp only [stateChangeEventsAux, countChangesFrom, if_true]
    by_cases h : (cellNe c prev && c.notna && prev.notna) = true
    · simp [h, ih]
      omega
    · simp [h, ih]

/-- Every cell compares as changed against a NaN predecessor. -/
lemma cellNe_nan_right (c : Cell) : cellNe c Cell.nan = true := by
  cases c <;> rfl

/-- Claim C3 (amended): state-change detection never emits the first
sample under the default ignore_nan=True — it emits exactly n records,
one per value change with both values present; the synthetic "Start"
record at the first sample is emitted exactly in the non-default
ignore_nan=False mode, where the first sample is always the first emitted
record. -/
theorem stateChange_count_amended (df : DataFrame) (c p : String) (col : List Cell)
    (hcol : df.getCol c = some col) (hne : col ≠ []) :
    (∃ evs, detect_state_change_events df c p true = .ok evs ∧
        evs.length = numValueChanges col)
    ∧ (∃ rest, detect_state_change_events df c p false =
        .ok ({ timestamp := df.timestamps.getD 0 0, activity := p ++ " Start",
               value := col.headD Cell.nan } :: rest)) := by
  obtain ⟨c0, ctail, rfl⟩ := List.exists_cons_of_ne_nil hne
  constructor
  · have hres : detect_state_change_events df c p true =
        .ok (stateChangeEventsAux p true (isBoolDtype (c0 :: ctail)) df.timestamps
          Cell.nan 0 (c0 :: ctail)) := by
      simp [detect_state_change_events, hcol]
    refine ⟨_, hres, ?_⟩
    rw [stateChangeEventsAux_length]
    simp [countChangesFrom, numValueChanges, Cell.notna]
  · refine ⟨stateChangeEventsAux p false (isBoolDtype (c0 :: ctail)) df.timestamps c0 1 ctail, ?_⟩
    simp only [detect_state_change_events, hcol]
    simp [stateChangeEventsAux, cellNe_nan_right]

/-- Witness for stateChange_count_amended on the two-row channel [1, 2]:
one change, one emitted record under ignore_nan=True, and a leading Start
record under ignore_nan=False. -/
theorem stateChange_count_amended_witness :
    (∃ evs, detect_state_change_events dfPair "x" "p" true = .ok evs ∧
        evs.length = numValueChanges [Cell.num 1, Cell.num 2])
    ∧ (∃ rest, detect_state_change_events dfPair "x" "p" false =
        .ok ({ timestamp := (0 : ℚ), activity := "p" ++ " Start",
               value := Cell.num 1 } :: rest)) :=
  stateChange_count_amended dfPair "x" "p" [Cell.num 1, Cell.num 2] rfl (by decide)

/-- A simple rule that the dispatcher would route to a denoiser method
returning a pd.Series (denoise_channel or compute_energy): the one entry
shape whose success can poison the final merge. -/
def seriesReturning (wd : Option Wd) (e : Entry) : Bool :=
  wd.isSome && e.derived_column.isNone &&
    (e.method = some "denoise_channel" || e.method = some "compute_energy")

/-- A six-row energy profile bound to the oil table. -/
def wdOil : Wd := ⟨dfOil, fun _ => [1, 2, 3, 4, 5, 6]⟩

/-- Claim C6 (escape bounding the amendment): with a denoiser supplied, a
simple rule naming compute_energy on an existing channel returns a
pd.Series; the tagging assignments extend the Series without raising, it
is appended to frames, and Series.sort_values("timestamp") at the merge
of lines 147-151 — outside the try — raises: an exception escapes the
dispatcher although every entry has a subsystem field. -/
theorem dispatch_series_contribution_escapes :
    dispatch_ship_events dfOil
      [{ subsystem := some "Engine", transition_type := some "error_activation",
         method := some "compute_energy", args := some { column := some "oil_psi" } }]
      (some wdOil) =
      .error (.valueError "No axis named timestamp for object type Series") := by rfl

/-- A denoiser call that is neither denoise_channel nor compute_energy
can only succeed with an event frame. -/
lemma callWd_evframe {w : Wd} {m : String} {a : Args} {r : PdResult}
    (hm1 : m ≠ "denoise_channel") (hm2 : m ≠ "compute_energy")
    (h : callWd w m a = .ok r) : ∃ evs, r = PdResult.evframe evs := by
  unfold callWd at h
  by_cases h1 : m = "detect_energy_change_points"
  · rw [if_pos h1] at h
    rcases hc1 : a.column with _ | col <;> rcases hc2 : a.event_name with _ | en <;>
      rw [hc1, hc2] at h
    · cases h
    · cases h
    · cases h
    · split_ifs at h with h5
      all_goals try cases h
      all_goals exact ⟨_, rfl⟩
  · rw [if_neg h1, if_neg hm1] at h
    by_cases h3 : m = "denoise_all"
    · rw [if_pos h3] at h
      cases h
    · rw [if_neg h3, if_neg hm2] at h
      cases h

/-- A simple-pattern call of a non-Series-returning rule can only succeed
with an event frame. -/
lemma simpleCall_events (df : DataFrame) (wd : Option Wd) (ss : String) (e : Entry)
    (a : Args) (hser : seriesReturning wd e = false) (hd : e.derived_column = none) :
    ∀ c, simpleCall df wd ss e a = .ok (.inr c) → ∃ evs, c = Contribution.events evs := by
  intro c hc
  unfold simpleCall at hc
  rcases hm : e.method with _ | m <;> rw [hm] at hc
  · cases hc
  · simp only [] at hc
    rcases hw : wd with _ | w <;> rw [hw] at hc <;> simp only [] at hc
    · rcases hcc : callClassifier df m a with exc | evs <;>
        rw [hcc] at hc <;> simp only [Except.map] at hc
      · cases hc
      · rcases htt : e.transition_type with _ | tt <;> rw [htt] at hc
        · cases hc
        · simp only [Sum.inr.injEq, Except.ok.injEq] at hc
          exact ⟨_, hc.symm⟩
    · by_cases hwh : wdHasMethod m = true
      · rw [if_pos hwh] at hc
        have hmne : m ≠ "denoise_channel" ∧ m ≠ "compute_energy" := by
          rw [seriesReturning, hw, hd, hm] at hser
          simpa using hser
        rcases hcw : callWd w m a with exc | r <;> rw [hcw] at hc
        · cases hc
        · obtain ⟨evs, rfl⟩ := callWd_evframe hmne.1 hmne.2 hcw
          rcases htt : e.transition_type with _ | tt <;> rw [htt] at hc
          · cases hc
          · simp only [Sum.inr.injEq, Except.ok.injEq] at hc
            exact ⟨_, hc.symm⟩
      · rw [if_neg hwh] at hc
        rcases hcc : callClassifier df m a with exc | evs <;>
          rw [hcc] at hc <;> simp only [Except.map] at hc
        · cases hc
        · rcases htt : e.transition_type with _ | tt <;> rw [htt] at hc
          · cases hc
          · simp only [Sum.inr.injEq, Except.ok.injEq] at hc
            exact ⟨_, hc.symm⟩

/-- A non-Series-returning entry can only append an event frame. -/
lemma tryEntry_events (df : DataFrame) (wd : Option Wd) (ss : String) (e : Entry)
    (hser : seriesReturning wd e = false) :
    ∀ c, (tryEntry df wd ss e).1 = .ok (.inr c) → ∃ evs, c = Contribution.events evs := by
  intro c hc
  rcases hd : e.derived_column with _ | ⟨col, op, val⟩ <;>
    simp only [tryEntry, hd] at hc
  · -- simple pattern: validation then simpleCall
    split at hc
    · cases hc
    · split at hc
      · -- a conditions list: missing-column check, then the call
        split at hc
        · cases hc
        · exact simpleCall_events df wd ss e _ hser hd c hc
      · split at hc
        · -- a single column: missing-column check, then the call
          split at hc
          · cases hc
          · exact simpleCall_events df wd ss e _ hser hd c hc
        · exact simpleCall_events df wd ss e _ hser hd c hc
  · -- derived pattern: every surviving contribution is an event frame
    split at hc
    · -- missing source column: warning or KeyError, never an event frame
      split at hc
      · cases hc
      · cases hc
    · split at hc
      · cases hc
      · split at hc
        · cases hc
        · split at hc
          · cases hc
          · split at hc
            · cases hc
            · split at hc
              · cases hc
              · cases hc
                exact ⟨_, rfl⟩

/-- The rule loop never raises when every entry has a subsystem, and when
no entry routes to a Series-returning denoiser method every contribution
it collects is an event frame. -/
lemma dispatchGo_ok_events (wd : Option Wd) (dfId : ℕ) :
    ∀ (cfg : List Entry) (s : Store),
      (∀ e ∈ cfg, e.subsystem.isSome = true) →
      (∀ e ∈ cfg, seriesReturning wd e = false) →
      ∃ cs ds s2, dispatchGo wd dfId cfg s = (.ok (cs, ds), s2) ∧
        ∀ c ∈ cs, ∃ evs, c = Contribution.events evs := by
  intro cfg
  induction cfg with
  | nil => exact fun s _ _ => ⟨[], [], s, rfl, by simp⟩
  | cons e rest ih =>
    intro s h hs
    obtain ⟨ss, he⟩ := Option.isSome_iff_exists.mp (h e (List.mem_cons_self e rest))
    obtain ⟨cs, ds, s2, hrec, hcs⟩ :=
      ih ⟨s.frames ++ (tryEntry (s.read dfId) wd ss e).2⟩
        (fun x hx => h x (List.mem_cons_of_mem e hx))
        (fun x hx => hs x (List.mem_cons_of_mem e hx))
    rcases htr : (tryEntry (s.read dfId) wd ss e).1 with exc | dd
    · exact ⟨cs, .ruleError ss e.args exc :: ds, s2,
        by simp only [dispatchGo, he, hrec, htr], hcs⟩
    · rcases dd with d | c
      · exact ⟨cs, d :: ds, s2, by simp only [dispatchGo, he, hrec, htr], hcs⟩
      · obtain ⟨evs, rfl⟩ := tryEntry_events (s.read dfId) wd ss e
          (hs e (List.mem_cons_self e rest)) c htr
        refine ⟨.events evs :: cs, ds, s2, by simp only [dispatchGo, he, hrec, htr], ?_⟩
        intro x hx
        rcases List.mem_cons.mp hx with rfl | hx'
        · exact ⟨evs, rfl⟩
        · exact hcs x hx'

/-- When every surviving contribution is an event frame, the merge always
succeeds (the concatenated frame carries a timestamp column). -/
lemma mergeFrames_ok (cs : List Contribution) (ds : List Diagnostic)
    (h : ∀ c ∈ cs, ∃ evs, c = Contribution.events evs) :
    ∃ out, mergeFrames cs ds = .ok out := by
  rcases cs with _ | ⟨c, rest⟩
  · exact ⟨_, rfl⟩
  · obtain ⟨evs, rfl⟩ := h c (List.mem_cons_self c rest)
    refine ⟨{ log := sortByTs ((Contribution.events evs :: rest).flatMap Contribution.eventRows),
              warnings := ds,
              straySeries := ((Contribution.events evs :: rest).filter
                Contribution.isSeries).length }, ?_⟩
    rw [mergeFrames, if_neg (by simp [Contribution.isSeries])]

/-- Claim C6 (amended): for every telemetry table, optional denoiser and
rule list in which every entry carries a subsystem field and no entry
routes to a Series-returning denoiser method (denoise_channel /
compute_energy under a supplied denoiser), no exception escapes the
dispatcher — every per-rule failure is caught, recorded as a diagnostic
and skipped, and the batch completes with a well-formed result. -/
theorem dispatch_error_boundary_amended (df : DataFrame) (wd : Option Wd)
    (config : List Entry)
    (hsub : ∀ e ∈ config, e.subsystem.isSome = true)
    (hser : ∀ e ∈ config, seriesReturning wd e = false) :
    ∃ out, dispatch_ship_events df config wd = .ok out := by
  obtain ⟨cs, ds, s2, hgo, hcs⟩ := dispatchGo_ok_events wd 0 config ⟨[df]⟩ hsub hser
  obtain ⟨out, hm⟩ := mergeFrames_ok cs ds hcs
  exact ⟨out, by simp only [dispatch_ship_events, hgo, hm]⟩

/-- A rule list holding a missing-column rule, a rule naming an unknown
method, a denoiser-routed energy-detection rule, and a well-formed
derived-state rule — every entry has a subsystem and none routes to a
Series-returning denoiser method. -/
def cfgMixed : List Entry :=
  [{ subsystem := some "Engine", transition_type := some "error_activation",
     method := some "detect_threshold_events",
     args := some { column := some "nope", threshold := some 160, condition := some ">",
                    event_name := some "hot" } },
   { subsystem := some "Brakes", method := some "no_such_method",
     transition_type := some "error_activation", args := some {} },
   { subsystem := some "Engine", transition_type := some "error_activation",
     method := some "detect_energy_change_points",
     args := some { column := some "oil_psi", event_name := some "en" } },
   entryLowOil]

/-- Witness for dispatch_error_boundary_amended: the mixed rule list,
dispatched with a denoiser supplied, still completes without a raised
error. -/
theorem dispatch_error_boundary_witness :
    ∃ out, dispatch_ship_events dfOil cfgMixed (some wdOil) = .ok out :=
  dispatch_error_boundary_amended dfOil (some wdOil) cfgMixed (by decide) (by decide)

/-- Reading below the old length is unaffected by appending frames. -/
lemma store_read_append (l l2 : List DataFrame) (j : ℕ) (h : j < l.length) :
    Store.read ⟨l ++ l2⟩ j = Store.read ⟨l⟩ j := by
  simp [Store.read, List.getD_eq_getElem?_getD, List.getElem?_append_left h]

/-- The rule loop never writes a frame that existed before it ran: every
allocation of the loop (the per-entry `df.copy(deep=False)` targets of
the derived-column assignment) lands at fresh addresses. -/
lemma dispatchGo_preserves (wd : Option Wd) (dfId : ℕ) :
    ∀ (cfg : List Entry) (s : Store) (j : ℕ), j < s.frames.length →
      ((dispatchGo wd dfId cfg s).2).read j = s.read j := by
  intro cfg
  induction cfg with
  | nil => intro s j _; rfl
  | cons e rest ih =>
    intro s j hj
    cases he : e.subsystem with
    | none => simp only [dispatchGo, he]
    | some ss =>
      have hlen : j < (Store.mk (s.frames ++ (tryEntry (s.read dfId) wd ss e).2)).frames.length := by
        simp only [Store.mk.injEq, List.length_append]
        omega
      have hpre := ih ⟨s.frames ++ (tryEntry (s.read dfId) wd ss e).2⟩ j hlen
      have happ := store_read_append s.frames (tryEntry (s.read dfId) wd ss e).2 j hj
      rcases hrec : dispatchGo wd dfId rest ⟨s.frames ++ (tryEntry (s.read dfId) wd ss e).2⟩
        with ⟨res, s2⟩
      have hs2 : s2.read j = s.read j := by
        rw [hrec] at hpre
        exact hpre.trans happ
      rcases res with exc | ⟨fs, ds⟩
      · simpa only [dispatchGo, he, hrec] using hs2
      · rcases htr : (tryEntry (s.read dfId) wd ss e).1 with exc | dd
        · simpa only [dispatchGo, he, hrec, htr] using hs2
        · rcases dd with d | evs
          · simpa only [dispatchGo, he, hrec, htr] using hs2
          · simpa only [dispatchGo, he, hrec, htr] using hs2

/-- Claim C8: dispatching never mutates the caller's table.  The store
holds the caller's frame at address 0; every frame-targeting write of the
source goes to the per-entry shallow copy allocated at a fresh address,
so after the whole rule loop the caller's frame still holds exactly the
columns and values it started with. -/
theorem dispatch_preserves_caller_table (df : DataFrame) (wd : Option Wd)
    (config : List Entry) :
    ((dispatchGo wd 0 config ⟨[df]⟩).2).read 0 = df := by
  rw [dispatchGo_preserves wd 0 config ⟨[df]⟩ 0 (by simp)]
  rfl

/-- Sum of a constant list. -/
lemma sum_const_list (l : List ℚ) (v : ℚ) (h : ∀ x ∈ l, x = v) :
    l.sum = l.length * v := by
  induction l with
  | nil => simp
  | cons a t ih =>
    have ha : a = v := h a (List.mem_cons_self a t)
    have ht := ih (fun x hx => h x (List.mem_cons_of_mem a hx))
    simp only [List.sum_cons, List.length_cons, ha, ht]
    push_cast
    ring

/-- An all-false mask has no rising edges: the current sample of each
zipped pair is false. -/
lemma zipWith_andNot_false (l l2 : List Bool) (h : ∀ b ∈ l, b = false) :
    List.zipWith (fun cur prev => cur && !prev) l l2 =
      List.replicate (min l.length l2.length) false := by
  induction l generalizing l2 with
  | nil => simp
  | cons a t ih =>
    cases l2 with
    | nil => simp
    | cons b t2 =>
      have ha : a = false := h a (List.mem_cons_self a t)
      simp [ha, ih t2 (fun x hx => h x (List.mem_cons_of_mem a hx)),
        List.replicate_succ, Nat.succ_min_succ]

/-- No index is selected by an all-false mask. -/
lemma selectedIndices_replicate_false (n : ℕ) :
    selectedIndices (List.replicate n false) = [] := by
  rw [selectedIndices, List.filter_eq_nil_iff]
  intro i _
  simp [List.getD_eq_getElem?_getD, List.getElem?_replicate]
  split <;> simp

/-- An all-false exceedance mask selects nothing. -/
lemma risingEdges_all_false (mask : List Bool) (h : ∀ b ∈ mask, b = false) :
    selectedIndices (risingEdges mask) = [] := by
  rw [risingEdges, zipWith_andNot_false mask (false :: mask) h,
    selectedIndices_replicate_false]

/-- Claim C10: on any existing channel whose windowed energy profile is
constant, energy change-point detection emits no events for any
threshold_sigma ≥ 0: the threshold is mean + threshold_sigma * std =
the constant itself (the deviation sum is 0), and the exceedance
comparison is strict.  (pandas yields std = NaN for a one-sample profile
and mean = NaN for an empty one; there the exceedance mask is likewise
all false, agreeing with this model's 0-valued division.) -/
theorem energy_constant_profile_no_events (wd : Wd) (column en : String) (v sigma : ℚ)
    (hcol : wd.df.hasCol column = true)
    (hconst : ∀ x ∈ wd.energy column, x = v)
    (_hsig : 0 ≤ sigma) :
    detect_energy_change_points wd column en sigma = [] := by
  simp only [detect_energy_change_points]
  rw [if_neg (by simp [hcol])]
  by_cases hE : wd.energy column = []
  · simp [hE, risingEdges, selectedIndices]
  · have hlen : ((wd.energy column).length : ℚ) ≠ 0 := by
      simpa using fun hz => hE (List.length_eq_zero.mp hz)
    have hmean : seriesMean (wd.energy column) = v := by
      rw [seriesMean, sum_const_list (wd.energy column) v hconst,
        mul_comm, mul_div_assoc, div_self hlen, mul_one]
    have hvar : seriesVar (wd.energy column) = 0 := by
      rw [seriesVar, List.sum_eq_zero, zero_div]
      intro x hx
      obtain ⟨y, hy, rfl⟩ := List.mem_map.mp hx
      rw [hconst y hy, hmean]
      ring
    have hstd : seriesStd (wd.energy column) = 0 := by
      rw [seriesStd, hvar]; rfl
    have hmask : ∀ b ∈ (wd.energy column).map
        (fun x => decide (seriesMean (wd.energy column)
          + sigma * seriesStd (wd.energy column) < x)), b = false := by
      intro b hb
      obtain ⟨x, hx, rfl⟩ := List.mem_map.mp hb
      simp [hconst x hx, hmean, hstd]
    rw [risingEdges_all_false _ hmask]
    rfl

/-- A six-sample constant energy profile bound to the oil table. -/
def wdConst : Wd := ⟨dfOil, fun _ => [5, 5, 5, 5, 5, 5]⟩

/-- Witness for energy_constant_profile_no_events at a concrete constant
profile and sigma = 3. -/
theorem energy_constant_profile_no_events_witness :
    detect_energy_change_points wdConst "oil_psi" "en" 3 = [] :=
  energy_constant_profile_no_events wdConst "oil_psi" "en" 5 3 (by decide) (by decide)
    (by norm_num)

/-- Appending different strings to the same left part gives different
strings. -/
lemma string_append_right_ne (s : String) {a b : String} (h : a ≠ b) :
    s ++ a ≠ s ++ b := by
  intro hab
  apply h
  cases s with | mk ds =>
  cases a with | mk da =>
  cases b with | mk db =>
  apply congrArg String.mk
  have hdata : ds ++ da = ds ++ db := congrArg String.data hab
  exact List.append_cancel_left hdata

/-- The False->True label hits the first tmap key. -/
lemma tmapLookup_FT (pfx : String) :
    tmapLookup pfx (pfx ++ " False->True") = some "error_activation" := by
  simp [tmapLookup]

/-- The True->False label misses the first tmap key and hits the second. -/
lemma tmapLookup_TF (pfx : String) :
    tmapLookup pfx (pfx ++ " True->False") = some "error_recovery" := by
  have hne : pfx ++ " True->False" ≠ pfx ++ " False->True" :=
    string_append_right_ne pfx (by decide)
  simp [tmapLookup, hne]

/-- Every transition type tmap can produce. -/
lemma tmapLookup_mem {pfx a tt : String} (h : tmapLookup pfx a = some tt) :
    tt = "error_activation" ∨ tt = "error_recovery" := by
  unfold tmapLookup at h
  split at h
  · exact Or.inl (Option.some.inj h).symm
  · split at h
    · exact Or.inr (Option.some.inj h).symm
    · cases h

/-- Every record surviving the tmap-and-dropna step of a derived-state
rule carries one of the two SHIP transition types. -/
lemma tagDerived_mem (pfx ss : String) (l : List Event) :
    ∀ ev ∈ l.filterMap (tagDerived pfx ss),
      ev.transition_type = "error_activation" ∨ ev.transition_type = "error_recovery" := by
  intro ev hev
  obtain ⟨a, _, ha⟩ := List.mem_filterMap.mp hev
  obtain ⟨tt, htt, rfl⟩ := Option.map_eq_some'.mp ha
  exact tmapLookup_mem htt

/-- Counting one more record of a given transition type. -/
lemma countTT_cons (tt : String) (x : TaggedEvent) (l : List TaggedEvent) :
    countTT tt (x :: l) = (if x.transition_type = tt then 1 else 0) + countTT tt l := by
  rw [countTT, countTT, List.filter_cons]
  split <;> simp_all <;> omega

/-- The boolean False->True transition label, assembled. -/
lemma transitionLabel_FT (pfx : String) :
    transitionLabel pfx true (Cell.bool false) (Cell.bool true) = pfx ++ " False->True" := rfl

/-- The boolean True->False transition label, assembled. -/
lemma transitionLabel_TF (pfx : String) :
    transitionLabel pfx true (Cell.bool true) (Cell.bool false) = pfx ++ " True->False" := rfl

/-- The two SHIP transition-type strings differ. -/
lemma ea_ne_er : ("error_activation" : String) ≠ "error_recovery" := by decide

/-- The two SHIP transition-type strings differ, the other way round. -/
lemma er_ne_ea : ("error_recovery" : String) ≠ "error_activation" := by decide

/-- Telescoping count of a derived-state rule's surviving records over a
boolean column tail: starting from a previous value p at a positive row
index, the activation count minus the recovery count equals the 0/1 value
of the final sample minus that of p. -/
lemma derived_counts (pfxv ss : String) (ts : List ℚ) :
    ∀ (bs : List Bool) (p : Bool) (i : ℕ), i ≠ 0 →
      ((countTT "error_activation" ((stateChangeEventsAux pfxv true true ts (Cell.bool p) i
          (bs.map Cell.bool)).filterMap (tagDerived pfxv ss)) : ℤ)
        - (countTT "error_recovery" ((stateChangeEventsAux pfxv true true ts (Cell.bool p) i
          (bs.map Cell.bool)).filterMap (tagDerived pfxv ss)) : ℤ))
        = boolInt (bs.getLastD p) - boolInt p := by
  intro bs
  induction bs with
  | nil => intro p i _; simp [stateChangeEventsAux, countTT]
  | cons b rest ih =>
    intro p i hi
    have hstep : stateChangeEventsAux pfxv true true ts (Cell.bool p) i
        ((b :: rest).map Cell.bool) =
        (if b = p then [] else
          [{ timestamp := ts.getD i 0,
             activity := transitionLabel pfxv true (Cell.bool p) (Cell.bool b),
             value := Cell.bool b }]) ++
          stateChangeEventsAux pfxv true true ts (Cell.bool b) (i + 1) (rest.map Cell.bool) := by
      simp only [List.map_cons, stateChangeEventsAux, cellNe, Cell.notna, Bool.and_true,
        if_neg hi]
      by_cases hbp : b = p <;> simp [hbp]
    rw [hstep]
    by_cases hbp : b = p
    · subst hbp
      rw [if_pos rfl, List.nil_append, ih b (i + 1) (Nat.succ_ne_zero i), List.getLastD_cons]
    · rw [if_neg hbp, List.singleton_append, List.getLastD_cons]
      have htail := ih b (i + 1) (Nat.succ_ne_zero i)
      cases p <;> cases b
      · exact absurd rfl hbp
      · -- p = false, b = true: an activation record joins the count
        simp only [List.filterMap_cons, tagDerived, transitionLabel_FT,
          tmapLookup_FT, Option.map_some']
        rw [countTT_cons, countTT_cons]
        simp only [ea_ne_er, boolInt, if_true, if_false, ite_true, ite_false,
          eq_self_iff_true]
        simp [boolInt] at htail ⊢
        linarith [htail]
      · -- p = true, b = false: a recovery record joins the count
        simp only [List.filterMap_cons, tagDerived, transitionLabel_TF,
          tmapLookup_TF, Option.map_some']
        rw [countTT_cons, countTT_cons]
        simp only [er_ne_ea, boolInt, if_true, if_false, ite_true, ite_false,
          eq_self_iff_true]
        simp [boolInt] at htail ⊢
        linarith [htail]
      · exact absurd rfl hbp

/-- Replacing the entry named `name` makes it the first find? hit. -/
lemma find?_map_replace (name : String) (col : List Cell) :
    ∀ cols : List (String × List Cell), cols.any (fun p => p.1 = name) = true →
      (cols.map (fun p => if p.1 = name then (name, col) else p)).find?
        (fun p => p.1 = name) = some (name, col) := by
  intro cols
  induction cols with
  | nil => intro h; cases h
  | cons q rest ih =>
    intro h
    by_cases hq : q.1 = name
    · simp [List.find?_cons, hq]
    · have hrest : rest.any (fun p => p.1 = name) = true := by simpa [hq] using h
      simpa [List.find?_cons, hq] using ih hrest

/-- After inserting the derived column, looking its name up yields it. -/
lemma getCol_setCol_self (df : DataFrame) (name : String) (col : List Cell) :
    (df.setCol name col).getCol name = some col := by
  rw [DataFrame.setCol]
  by_cases h : df.cols.any (fun p => p.1 = name) = true
  · rw [if_pos h]
    simp only [DataFrame.getCol]
    rw [find?_map_replace name col df.cols h]
    rfl
  · rw [if_neg h]
    simp only [DataFrame.getCol]
    have hnone : df.cols.find? (fun p => decide (p.1 = name)) = none := by
      rw [List.find?_eq_none]
      intro x hx
      simp only [Bool.not_eq_true, decide_eq_false_iff_not]
      intro hx1
      exact h (List.any_eq_true.mpr ⟨x, hx, by simpa using hx1⟩)
    rw [List.find?_append, hnone]
    simp [List.find?]

/-- Inserting a column leaves the time axis unchanged. -/
lemma setCol_timestamps (df : DataFrame) (name : String) (col : List Cell) :
    (df.setCol name col).timestamps = df.timestamps := by
  rw [DataFrame.setCol]
  split <;> rfl

/-- A column built from a comparison mask is a bool-dtype column. -/
lemma isBoolDtype_map (f : Cell → Bool) (l : List Cell) :
    isBoolDtype (l.map (fun c => Cell.bool (f c))) = true := by
  rw [isBoolDtype, List.all_eq_true]
  intro x hx
  obtain ⟨c, _, rfl⟩ := List.mem_map.mp hx
  rfl

/-- What a well-formed derived-state rule contributes: state-change
events of the derived boolean column, pushed through tmap and dropna. -/
lemma ruleContribution_derived (df : DataFrame) (wd : Option Wd)
    (ss srcCol op pfxv : String) (val : ℚ)
    (hc : df.hasCol srcCol = true) (hop : knownOp op = true) :
    ruleContribution df wd ss (derivedEntry srcCol op pfxv ss val) =
      (stateChangeEventsAux pfxv true true df.timestamps Cell.nan 0
        (((df.getCol srcCol).getD []).map (fun c => Cell.bool (cellCmp op c val)))).filterMap
        (tagDerived pfxv ss) := by
  rw [ruleContribution]
  simp [tryEntry, derivedEntry, hc, hop, callClassifier, detect_state_change_events,
    getCol_setCol_self, isBoolDtype_map, setCol_timestamps]

/-- Claim C5: every record a derived-state rule contributes to the log
carries one of the two SHIP transition types (the spec's activation and
recovery, realised as "error_activation" and "error_recovery"): the
False->True label maps to the activation type, the True->False label to
the recovery type, and every other label (in particular the synthetic
Start) is dropped by the tmap-and-dropna step; moreover, the activation
and recovery counts of one such rule differ by at most one, since the
derived boolean column's transitions alternate. -/
theorem derived_rule_activation_recovery (df : DataFrame) (wd : Option Wd)
    (ss srcCol op pfxv : String) (val : ℚ) :
    (∀ ev ∈ ruleContribution df wd ss (derivedEntry srcCol op pfxv ss val),
      ev.transition_type = "error_activation" ∨ ev.transition_type = "error_recovery")
    ∧ ((countTT "error_activation"
          (ruleContribution df wd ss (derivedEntry srcCol op pfxv ss val)) : ℤ)
        - (countTT "error_recovery"
          (ruleContribution df wd ss (derivedEntry srcCol op pfxv ss val)) : ℤ)).natAbs
        ≤ 1 := by
  cases hc : df.hasCol srcCol with
  | false =>
    have hskip : ruleContribution df wd ss (derivedEntry srcCol op pfxv ss val) = [] := by
      rw [ruleContribution]
      simp [tryEntry, derivedEntry, hc]
    rw [hskip]
    exact ⟨by simp, by simp [countTT]⟩
  | true =>
    cases hop : knownOp op with
    | false =>
      have hskip : ruleContribution df wd ss (derivedEntry srcCol op pfxv ss val) = [] := by
        rw [ruleContribution]
        simp [tryEntry, derivedEntry, hc, hop]
      rw [hskip]
      exact ⟨by simp, by simp [countTT]⟩
    | true =>
      rw [ruleContribution_derived df wd ss srcCol op pfxv val hc hop]
      rcases hcv : (df.getCol srcCol).getD [] with _ | ⟨c0, ctail⟩
      · exact ⟨by simp [stateChangeEventsAux], by simp [stateChangeEventsAux, countTT]⟩
      · -- the first row never fires (NaN predecessor); the tail telescopes
        have hfirst : stateChangeEventsAux pfxv true true df.timestamps Cell.nan 0
            ((c0 :: ctail).map (fun c => Cell.bool (cellCmp op c val))) =
            stateChangeEventsAux pfxv true true df.timestamps
              (Cell.bool (cellCmp op c0 val)) 1
              (ctail.map (fun c => Cell.bool (cellCmp op c val))) := by
          simp [stateChangeEventsAux, cellNe, Cell.notna]
        rw [hfirst]
        have hmm : ctail.map (fun c => Cell.bool (cellCmp op c val)) =
            (ctail.map (fun c => cellCmp op c val)).map Cell.bool := by
          rw [List.map_map]; rfl
        rw [hmm]
        refine ⟨tagDerived_mem pfxv ss _, ?_⟩
        rw [derived_counts pfxv ss df.timestamps
          (ctail.map (fun c => cellCmp op c val)) (cellCmp op c0 val) 1 one_ne_zero]
        rcases hl : (ctail.map (fun c => cellCmp op c val)).getLastD (cellCmp op c0 val)
          <;> rcases hb : cellCmp op c0 val <;> simp [boolInt]

end PM
